import Mathlib

/-!
Verification of the linkedIn-agent repository's specification against a
shallow embedding of its three Python source files
(`main.py`, `src/services/autogen_gemini_service.py`,
`src/services/linkedin_service.py`).

Modelling conventions:
- JSON values (the results of `json.loads`) are the inductive `JsonVal`;
  Python dicts produced by JSON parsing are association lists
  (`List (String × JsonVal)`) with unique keys and insertion order.
- Python exceptions become `Except PyErr`; the distinct exception classes
  used by the code (`ValueError`, `KeyError`, `TypeError`,
  `LinkedInAuthError`, `LinkedInPostError`) are the constructors of `PyErr`.
- The process environment (`os.getenv`) is a function `String → Option String`.
- Network I/O (`requests.post` / `requests.get` and the agent conversation)
  is abstracted by passing the collaborator's response as an argument; a
  function that never inspects that argument performs no network call.
- `json.loads` applied to backend-produced text is abstracted as an
  `Except String Obj` argument (the parse result); JSON numbers are
  modelled as integers (no float appears in any code path the claims touch).
-/

/-- A JSON value as produced by Python's `json.loads`. -/
inductive JsonVal where
  | str (s : String)
  | num (n : Int)
  | bool (b : Bool)
  | null
  | arr (xs : List JsonVal)
  | obj (fields : List (String × JsonVal))

/-- A parsed JSON object (Python dict from `json.loads`): an ordered
association list of key/value pairs with unique keys. -/
abbrev Obj := List (String × JsonVal)

/-- Python `d.get(k)` / `k in d` lookup on a parsed JSON object. -/
def lookupField : Obj → String → Option JsonVal
  | [], _ => none
  | (k', v) :: rest, k => if k' = k then some v else lookupField rest k

/-- Python `d[k] = v`: replace the value in place if the key exists
(preserving insertion order), otherwise append the pair at the end. -/
def setField : Obj → String → JsonVal → Obj
  | [], k, v => [(k, v)]
  | (k', v') :: rest, k, v =>
      if k' = k then (k, v) :: rest else (k', v') :: setField rest k v

/-- Python truthiness of a JSON value (`bool(v)`). -/
def pyTruthy : JsonVal → Bool
  | .str s => !s.isEmpty
  | .num n => n != 0
  | .bool b => b
  | .null => false
  | .arr xs => !xs.isEmpty
  | .obj fs => !fs.isEmpty

/-- Python truthiness of a `d.get(k)` result (`None` is falsy). -/
def pyTruthyOpt : Option JsonVal → Bool
  | none => false
  | some v => pyTruthy v

/-- Python truthiness of an `os.getenv` result (`None` and `""` are falsy). -/
def pyTruthyStrOpt : Option String → Bool
  | none => false
  | some s => !s.isEmpty

/-- The Python exception kinds raised by this repository's code. -/
inductive PyErr where
  | valueError (msg : String)
  | keyError (key : String)
  | typeError (msg : String)
  | authError (msg : String)
  | postError (msg : String)
deriving DecidableEq

/-- Python `str(e)` for the exceptions above (`str` of a `KeyError` is the
`repr` of the missing key). -/
def pyStr : PyErr → String
  | .valueError m => m
  | .keyError k => "\x27" ++ k ++ "\x27"
  | .typeError m => m
  | .authError m => m
  | .postError m => m

/-- Python `d[k]` on a parsed JSON object: `KeyError` when absent. -/
def getItem (d : Obj) (k : String) : Except PyErr JsonVal :=
  match lookupField d k with
  | some v => .ok v
  | none => .error (.keyError k)

/-- Checks that every element of the list is a JSON string and returns the
underlying strings (the element check `str.join` performs). -/
def allStr? : List JsonVal → Option (List String)
  | [] => some []
  | .str s :: rest => (allStr? rest).map (s :: ·)
  | _ :: _ => none

/-- Concatenation of a list of strings with a separator between elements:
the semantics of Python `sep.join(list_of_str)`. -/
def strJoin (sep : String) : List String → String
  | [] => ""
  | [x] => x
  | x :: xs => x ++ sep ++ strJoin sep xs

/-- Python `sep.join(v)` for a JSON value: joins a list of strings, joins
the characters when given a string (strings are iterables of 1-character
strings), and raises `TypeError` otherwise. -/
def pyJoin (sep : String) (v : JsonVal) : Except PyErr String :=
  match v with
  | .arr xs =>
      match allStr? xs with
      | some ss => .ok (strJoin sep ss)
      | none => .error (.typeError "sequence item: expected str instance")
  | .str s => .ok (strJoin sep (s.toList.map String.singleton))
  | _ => .error (.typeError "can only join an iterable of strings")

/-- The `except` cascade of `main()` (main.py lines 102-113): the message
category printed to stderr for each escaping exception kind; every branch
exits with status 1, so no exception crashes the process unhandled. -/
def main_error_label : PyErr → String
  | .authError _ => "Authentication Error"
  | .postError _ => "LinkedIn API Error"
  | .valueError _ => "Configuration Error"
  | .keyError _ => "Unexpected Error"
  | .typeError _ => "Unexpected Error"

/-! ## Substring search (used only to state theorems about string contents) -/

/-- Does the character list start with the given pattern? -/
def startsWithChars : List Char → List Char → Bool
  | _, [] => true
  | [], _ :: _ => false
  | c :: cs, p :: ps => c == p && startsWithChars cs ps

/-- Does the pattern occur anywhere in the character list? -/
def containsChars : List Char → List Char → Bool
  | [], p => p.isEmpty
  | c :: cs, p => startsWithChars (c :: cs) p || containsChars cs p

/-- Does `pat` occur as a substring of `s`? -/
def strContains (s pat : String) : Bool :=
  containsChars s.toList pat.toList

/-! ## The regex fence stripper

`generate_post` (autogen_gemini_service.py line 147) runs
`re.sub(r'```json\s*|\s*```', '', summary, flags=re.DOTALL)`.
The scanner below embeds CPython `re.sub` semantics for this pattern:
scan left to right; at each position first try the alternative
`` ```json `` followed by a greedy whitespace run, then the alternative of
a greedy whitespace run followed by `` ``` `` (backtracking over the run is
vacuous because whitespace is never a backtick, so that alternative matches
exactly when the maximal whitespace run is followed by `` ``` ``); each
match is deleted and scanning resumes after it, otherwise advance one
character.  `\s` is modelled as the ASCII whitespace class (the pattern's
`re.DOTALL` flag is irrelevant: the pattern contains no dot), which covers
every input considered here. -/

/-- Python `\s` on the ASCII range. -/
def isPySpace (c : Char) : Bool :=
  c == ' ' || c == '\t' || c == '\n' || c == '\r' || c == '\x0b' || c == '\x0c'

/-- If `p` is a prefix of the list, drop it and return the rest. -/
def dropPrefixChars : List Char → List Char → Option (List Char)
  | [], s => some s
  | _ :: _, [] => none
  | p :: ps, c :: cs => if p == c then dropPrefixChars ps cs else none

/-- The characters of the first regex alternative `` ```json ``. -/
def jsonFenceChars : List Char := ['`', '`', '`', 'j', 's', 'o', 'n']

/-- The characters of a bare code fence `` ``` ``. -/
def fenceChars : List Char := ['`', '`', '`']

/-- Try to match the regex `` ```json\s*|\s*``` `` at the head of the list;
on success return the remainder after the match. -/
def matchAlt (s : List Char) : Option (List Char) :=
  match dropPrefixChars jsonFenceChars s with
  | some rest => some (rest.dropWhile isPySpace)
  | none =>
      match dropPrefixChars fenceChars (s.dropWhile isPySpace) with
      | some rest => some rest
      | none => none

/-- Left-to-right scan of `re.sub(pattern, '', s)`: delete each
non-overlapping match, otherwise keep one character and move on.  The fuel
starts at the list length and strictly dominates it throughout (a match
consumes at least one character), so it is never exhausted. -/
def reSubStripAux : Nat → List Char → List Char
  | 0, s => s
  | _ + 1, [] => []
  | n + 1, c :: cs =>
      match matchAlt (c :: cs) with
      | some rest => reSubStripAux n rest
      | none => c :: reSubStripAux n cs

/-- The fence-stripping step of `generate_post` (line 147):
`re.sub(r'```json\s*|\s*```', '', summary, flags=re.DOTALL)`. -/
def cleanedSummary (s : String) : String :=
  (reSubStripAux s.length s.toList).asString

/-- Does the character list contain three consecutive backticks? -/
def hasFence : List Char → Bool
  | [] => false
  | c :: cs => startsWithChars (c :: cs) fenceChars || hasFence cs

/-! ## The prompt builder and the head of `generate_post` -/

/-- Embedding of `LinkedInPostGenerator._create_linkedin_prompt`
(autogen_gemini_service.py lines 54-75): the f-string returned for a topic,
reproduced verbatim including the source's indentation. -/
def create_linkedin_prompt (topic : String) : String :=
  "Create an engaging LinkedIn post about " ++ topic ++ ". The post should:\n" ++
  "        - Be optimized for LinkedIn\x27s professional audience\n" ++
  "        - Be between 150-200 words\n" ++
  "        - Include line breaks for readability\n" ++
  "        - Focus on providing value and insights\n" ++
  "        - Include a short, relevant code snippet (3-5 lines max) that demonstrates a key concept\n" ++
  "        - Format the code properly with ```c# ``` markdown syntax\n" ++
  "        - End with an engaging question that encourages discussion\n" ++
  "        - Add 3-4 relevant hashtags\n" ++
  "        - Use a professional and approachable tone\n" ++
  "        - Avoid using emojis\n" ++
  "        - provide output in json format \x7b\"title\": \"\", \"content\": \"\", \"code\": \"\", \"hashtags\": [], \"question\": \"\"\x7d\n" ++
  "        "

/-- Embedding of the head of `LinkedInPostGenerator.generate_post`
(autogen_gemini_service.py lines 131-143): the topic check happens first,
and only then is the prompt built and handed to the agent conversation.
Everything from agent construction onward (the backend call and the
downstream processing of its result) is abstracted as the continuation
`rest`, so a result independent of `rest` was produced before any backend
call. -/
def generate_post_head (topic : String) (rest : String → Except PyErr String) :
    Except PyErr String :=
  if topic.isEmpty then .error (.valueError "Topic is required")
  else rest (create_linkedin_prompt topic)

/-! ## The AI-disclosure injector -/

/-- The disclosure text appended by `_add_ai_disclosure` (line 169),
a separator followed by the robot emoji and the disclosure sentence. -/
def aiDisclosure : String :=
  "\n\n---\n" ++ String.singleton (Char.ofNat 0x1F916) ++
  " This post was generated with the help of AI."

/-- The two hashtags appended by `_add_ai_disclosure` (lines 173-175). -/
def aiHashtags : List JsonVal := [.str "#AIGenerated", .str "#GeminiAI"]

/-- Lines 172-175 of `_add_ai_disclosure`: extend `hashtags` with the two
fixed tags when it is a list, otherwise overwrite it with exactly those
two tags. -/
def extendHashtags (d1 : Obj) : Obj :=
  match lookupField d1 "hashtags" with
  | some (.arr hs) => setField d1 "hashtags" (.arr (hs ++ aiHashtags))
  | _ => setField d1 "hashtags" (.arr aiHashtags)

/-- Embedding of the body of `LinkedInPostGenerator._add_ai_disclosure`
(lines 167-177) between `json.loads` and `json.dumps`:
`post_dict["content"] += <disclosure>` (a `KeyError` when the key is
absent; Python list `+=` extends with the characters of the string when the
value is a list; `TypeError` for the remaining value shapes), then extend
`hashtags` with the two fixed tags when it is a list, otherwise overwrite
it with exactly those two tags. -/
def add_ai_disclosure_dict (d : Obj) : Except PyErr Obj :=
  match lookupField d "content" with
  | none => .error (.keyError "content")
  | some (.str c) =>
      .ok (extendHashtags (setField d "content" (.str (c ++ aiDisclosure))))
  | some (.arr xs) =>
      .ok (extendHashtags (setField d "content"
        (.arr (xs ++ aiDisclosure.toList.map (fun ch => .str (String.singleton ch))))))
  | some _ => .error (.typeError "unsupported operand types for +=")

/-- Embedding of `LinkedInPostGenerator._add_ai_disclosure`
(lines 154-179).  The `json.loads(post_json)` call is abstracted as the
parse result `parsed`; its `try` block catches exactly
`json.JSONDecodeError` and re-raises it as a `ValueError`, while any other
exception from the body (in particular the `KeyError` on a missing
`content` key) propagates uncaught.  The final `json.dumps` re-serialises
the transformed dict, which round-trips, so the result is the dict. -/
def add_ai_disclosure (parsed : Except String Obj) : Except PyErr Obj :=
  match parsed with
  | .error e => .error (.valueError ("Invalid JSON format: " ++ e))
  | .ok d => add_ai_disclosure_dict d

/-! ## The renderer -/

/-- The required-field list of `_convert_to_linkedin_post` (line 196). -/
def requiredFields : List String := ["title", "content", "hashtags", "question"]

/-- The missing-field computation of `_convert_to_linkedin_post` (line 197):
`[field for field in required_fields if not post_dict.get(field)]`. -/
def missingRequiredFields (d : Obj) : List String :=
  requiredFields.filter fun f => !(pyTruthyOpt (lookupField d f))

/-- Embedding of the body of `_convert_to_linkedin_post` (lines 195-221)
after `json.loads`: validate the four required fields collecting every
falsy one, then assemble `post_parts` exactly as the source does and join
them (`"".join` raises `TypeError` on a non-string part, `" ".join` on a
non-iterable or non-string-element `hashtags`). -/
def convert_to_linkedin_post_dict (d : Obj) : Except PyErr String :=
  let missing := missingRequiredFields d
  if missing.isEmpty then
    match getItem d "title", getItem d "content", getItem d "question",
          getItem d "hashtags" with
    | .error e, _, _, _ => .error e
    | _, .error e, _, _ => .error e
    | _, _, .error e, _ => .error e
    | _, _, _, .error e => .error e
    | .ok title, .ok content, .ok question, .ok hashtags =>
        let codeParts : List JsonVal :=
          match lookupField d "code" with
          | some cv => if pyTruthy cv then [.str "\n\n```c#\n", cv, .str "\n```"] else []
          | none => []
        match pyJoin " " hashtags with
        | .error e => .error e
        | .ok hashtagStr =>
            pyJoin "" (.arr ([title, .str "\n\n", content] ++ codeParts ++
              [.str "\n\n", question, .str "\n\n", .str hashtagStr]))
  else .error (.valueError ("Missing required fields: " ++ String.intercalate ", " missing))

/-- Embedding of `LinkedInPostGenerator._convert_to_linkedin_post`
(lines 181-223) with `json.loads(post_json)` abstracted as the parse
result: a JSON decode failure is caught and re-raised as a `ValueError`,
otherwise the parsed dict is rendered. -/
def convert_to_linkedin_post (parsed : Except String Obj) : Except PyErr String :=
  match parsed with
  | .error e => .error (.valueError ("Invalid JSON format: " ++ e))
  | .ok d => convert_to_linkedin_post_dict d

/-! ## Environment-backed configuration -/

/-- The process environment as seen by `os.getenv`. -/
abbrev Env := String → Option String

/-- The Gemini configuration record (autogen_gemini_service.py lines 13-17). -/
structure GeminiConfig where
  api_key : String
  model : String

/-- The missing-variable list built by `GeminiConfig.from_env`
(lines 33-37): `GEMINI_API_KEY` first, then `GEMINI_MODEL`. -/
def geminiMissingVars (env : Env) : List String :=
  (if !pyTruthyStrOpt (env "GEMINI_API_KEY") then ["GEMINI_API_KEY"] else []) ++
  (if !pyTruthyStrOpt (env "GEMINI_MODEL") then ["GEMINI_MODEL"] else [])

/-- Embedding of `GeminiConfig.from_env` (lines 19-40): read both
variables, and if either is falsy raise a `ValueError` listing every
missing one. -/
def GeminiConfig.from_env (env : Env) : Except PyErr GeminiConfig :=
  if !pyTruthyStrOpt (env "GEMINI_API_KEY") || !pyTruthyStrOpt (env "GEMINI_MODEL") then
    .error (.valueError ("Missing required environment variables: " ++
      String.intercalate ", " (geminiMissingVars env)))
  else
    .ok ⟨(env "GEMINI_API_KEY").getD "", (env "GEMINI_MODEL").getD ""⟩

/-- The LinkedIn configuration record (linkedin_service.py lines 11-17). -/
structure LinkedInConfig where
  api_url : String
  client_id : String
  client_secret : String
  redirect_uri : String

/-- The keys of the `required_vars` dict of `LinkedInConfig.from_env`
(lines 29-34), in insertion order. -/
def linkedInRequiredVars : List String :=
  ["LINKEDIN_API_URL", "LINKEDIN_CLIENT_ID", "LINKEDIN_CLIENT_SECRET",
   "LINKEDIN_REDIRECT_URI"]

/-- The missing-variable list of `LinkedInConfig.from_env` (line 36):
`[key for key, value in required_vars.items() if not value]`. -/
def linkedInMissingVars (env : Env) : List String :=
  linkedInRequiredVars.filter fun k => !pyTruthyStrOpt (env k)

/-- Embedding of `LinkedInConfig.from_env` (lines 19-45): look up all four
variables, raise a `ValueError` listing every missing one if any is falsy,
otherwise build the record. -/
def LinkedInConfig.from_env (env : Env) : Except PyErr LinkedInConfig :=
  let missing := linkedInMissingVars env
  if missing.isEmpty then
    .ok ⟨(env "LINKEDIN_API_URL").getD "", (env "LINKEDIN_CLIENT_ID").getD "",
         (env "LINKEDIN_CLIENT_SECRET").getD "", (env "LINKEDIN_REDIRECT_URI").getD ""⟩
  else
    .error (.valueError ("Missing required environment variables: " ++
      String.intercalate ", " missing))

/-! ## The LinkedIn HTTP client

Each client function performs exactly one HTTP request; the collaborator's
reply is passed in as an `HttpResponse` argument.  The request payloads and
headers built by the source only parametrise that network call and are not
modelled.  `response.json()` is the `jsonBody` field (`none` when the body
is not valid JSON, in which case `requests` raises its `JSONDecodeError`, a
`RequestException` subclass). -/

/-- The observable part of a `requests` response: final status code, reason
phrase, and the result of `response.json()`. -/
structure HttpResponse where
  status : Nat
  reason : String
  jsonBody : Option JsonVal

/-- Embedding of `response.raise_for_status()`: an error message exactly
for statuses 400-599 (a 1xx/3xx status raises nothing), built as
`requests` builds `str(HTTPError)` from the status, reason and URL. -/
def raiseForStatus (resp : HttpResponse) (url : String) : Option String :=
  if 400 ≤ resp.status ∧ resp.status < 500 then
    some (toString resp.status ++ " Client Error: " ++ resp.reason ++ " for url: " ++ url)
  else if 500 ≤ resp.status ∧ resp.status < 600 then
    some (toString resp.status ++ " Server Error: " ++ resp.reason ++ " for url: " ++ url)
  else none

/-- The message of the `JSONDecodeError` raised by `response.json()` on an
empty or non-JSON body. -/
def jsonDecodeMsg : String := "Expecting value: line 1 column 1 (char 0)"

/-- Embedding of `create_linkedin_ugc_post` (linkedin_service.py lines
59-107): validate the three arguments, construct the config from the
environment (a fresh `LinkedInConfig.from_env()` call — the `ValueError` it
may raise escapes the function's `try`, which only catches
`RequestException`), post, and wrap any `RequestException`
(`raise_for_status` failure or JSON decode failure) as a
`LinkedInPostError`. -/
def create_linkedin_ugc_post (env : Env) (access_token author_id text : String)
    (resp : HttpResponse) : Except PyErr JsonVal :=
  if !(!access_token.isEmpty && !author_id.isEmpty && !text.isEmpty) then
    .error (.valueError "access_token, author_id, and text are all required")
  else
    match LinkedInConfig.from_env env with
    | .error e => .error e
    | .ok config =>
        match raiseForStatus resp (config.api_url ++ "/v2/ugcPosts") with
        | some msg => .error (.postError ("Failed to create UGC post: " ++ msg))
        | none =>
            match resp.jsonBody with
            | some v => .ok v
            | none => .error (.postError ("Failed to create UGC post: " ++ jsonDecodeMsg))

/-- Embedding of `get_linkedin_access_token` (lines 109-142): validate the
code, construct the config from the environment, post, wrap any
`RequestException` as a `LinkedInAuthError`, and require an `access_token`
key in the JSON reply (its absence is a `LinkedInAuthError` raised inside
the `try`, which does not catch it). -/
def get_linkedin_access_token (env : Env) (code : String) (resp : HttpResponse) :
    Except PyErr JsonVal :=
  if code.isEmpty then .error (.valueError "Authorization code is required")
  else
    match LinkedInConfig.from_env env with
    | .error e => .error e
    | .ok config =>
        match raiseForStatus resp (config.api_url ++ "/oauth/v2/accessToken") with
        | some msg => .error (.authError ("Failed to get access token: " ++ msg))
        | none =>
            match resp.jsonBody with
            | none => .error (.authError ("Failed to get access token: " ++ jsonDecodeMsg))
            | some (.obj fs) =>
                match lookupField fs "access_token" with
                | some v => .ok v
                | none => .error (.authError "Access token not found in response")
            | some _ => .error (.typeError "argument of type is not a mapping")

/-- Embedding of `get_linkedin_userinfo` (lines 159-183): validate the
token, construct the config from the environment, get, and wrap any
`RequestException` as a `LinkedInAuthError`. -/
def get_linkedin_userinfo (env : Env) (access_token : String) (resp : HttpResponse) :
    Except PyErr JsonVal :=
  if access_token.isEmpty then .error (.valueError "Access token is required")
  else
    match LinkedInConfig.from_env env with
    | .error e => .error e
    | .ok config =>
        match raiseForStatus resp (config.api_url ++ "/v2/userinfo") with
        | some msg => .error (.authError ("Failed to fetch userinfo: " ++ msg))
        | none =>
            match resp.jsonBody with
            | some v => .ok v
            | none => .error (.authError ("Failed to fetch userinfo: " ++ jsonDecodeMsg))

/-! ## The orchestration wrappers in main.py -/

/-- Python `"sub" in user_info` for the shapes `response.json()` can
return: key membership for a dict, element membership for a list,
substring for a string; the remaining shapes raise `TypeError`. -/
def pyMember (k : String) : JsonVal → Except PyErr Bool
  | .obj fs => .ok (lookupField fs k).isSome
  | .arr xs => .ok (xs.any fun v => match v with | .str s => s == k | _ => false)
  | .str s => .ok (strContains s k)
  | _ => .error (.typeError "argument of type is not iterable")

/-- Embedding of `fetch_linkedin_userinfo` (main.py lines 27-47): reject an
empty token before the `try`; inside the `try`, call the service, check the
reply is truthy and has a `sub` key, and re-wrap any exception raised
within (including the local `ValueError` for an invalid reply) as
`ValueError("Failed to fetch LinkedIn user info: " + str(e))`. -/
def fetch_linkedin_userinfo (env : Env) (access_token : String)
    (resp : HttpResponse) : Except PyErr JsonVal :=
  if access_token.isEmpty then .error (.valueError "Access token is required")
  else
    let inner : Except PyErr JsonVal :=
      match get_linkedin_userinfo env access_token resp with
      | .error e => .error e
      | .ok v =>
          if !pyTruthy v then
            .error (.valueError "Invalid user info response from LinkedIn")
          else
            match pyMember "sub" v with
            | .error e => .error e
            | .ok true => .ok v
            | .ok false => .error (.valueError "Invalid user info response from LinkedIn")
    match inner with
    | .ok v => .ok v
    | .error e => .error (.valueError ("Failed to fetch LinkedIn user info: " ++ pyStr e))

/-- Embedding of `post_linkedin_ugc` (main.py lines 49-70): validate the
three arguments, call the service, and re-wrap any exception as
`ValueError("Failed to create LinkedIn post: " + str(e))`. -/
def post_linkedin_ugc (env : Env) (access_token author_id text : String)
    (resp : HttpResponse) : Except PyErr JsonVal :=
  if !(!access_token.isEmpty && !author_id.isEmpty && !text.isEmpty) then
    .error (.valueError "Access token, author ID, and text are all required")
  else
    match create_linkedin_ugc_post env access_token author_id text resp with
    | .ok v => .ok v
    | .error e => .error (.valueError ("Failed to create LinkedIn post: " ++ pyStr e))

/-! ## Statement helpers -/

/-- The code segment the renderer inserts for a given `code` field value of
the shape PostDraft allows (absent, or a string): empty when absent or
empty, otherwise the fenced block. -/
def renderCodeSeg : Option JsonVal → String
  | some (.str cs) => if cs.isEmpty then "" else "\n\n```c#\n" ++ cs ++ "\n```"
  | _ => ""

/-! ## Support lemmas -/

theorem lookupField_setField_self (d : Obj) (k : String) (v : JsonVal) :
    lookupField (setField d k v) k = some v := by
  induction d with
  | nil => simp [setField, lookupField]
  | cons p rest ih =>
      by_cases h : p.1 = k
      · simp [setField, lookupField, h]
      · simp [setField, lookupField, h, ih]

theorem lookupField_setField_ne (d : Obj) (k k' : String) (v : JsonVal)
    (h : k' ≠ k) : lookupField (setField d k v) k' = lookupField d k' := by
  induction d with
  | nil => simp [setField, lookupField, Ne.symm h]
  | cons p rest ih =>
      cases p with
      | mk pk pv =>
          by_cases hp : pk = k
          · subst hp
            simp [setField, lookupField, Ne.symm h]
          · simp only [setField, lookupField, if_neg hp]
            split <;> simp [ih]

theorem allStr?_map (l : List String) : allStr? (l.map JsonVal.str) = some l := by
  induction l with
  | nil => rfl
  | cons x xs ih => simp [allStr?, ih]

theorem isEmpty_false_of_ne (t : String) (h : t ≠ "") : t.isEmpty = false := by
  cases he : t.isEmpty
  · rfl
  · exact absurd ((String.isEmpty_iff t).mp he) h

theorem pyTruthy_str_of_ne (t : String) (h : t ≠ "") : pyTruthy (.str t) = true := by
  simp [pyTruthy, isEmpty_false_of_ne t h]

theorem startsWithChars_append (p t : List Char) :
    startsWithChars (p ++ t) p = true := by
  induction p with
  | nil => cases t <;> rfl
  | cons c cs ih => simp [startsWithChars, ih]

theorem startsWithChars_of_append (s p q : List Char)
    (h : startsWithChars s (p ++ q) = true) : startsWithChars s p = true := by
  induction p generalizing s with
  | nil => cases s <;> rfl
  | cons c cs ih =>
      cases s with
      | nil => simp [startsWithChars] at h
      | cons x xs =>
          simp only [List.cons_append, startsWithChars, Bool.and_eq_true] at h ⊢
          exact ⟨h.1, ih xs h.2⟩

theorem dropPrefixChars_some_startsWith (p s r : List Char)
    (h : dropPrefixChars p s = some r) : startsWithChars s p = true := by
  induction p generalizing s with
  | nil => cases s <;> rfl
  | cons c cs ih =>
      cases s with
      | nil => simp [dropPrefixChars] at h
      | cons x xs =>
          simp only [dropPrefixChars] at h
          split at h
          · next heq =>
              simp only [startsWithChars, Bool.and_eq_true]
              refine ⟨?_, ih xs h⟩
              simpa [BEq.comm] using heq
          · exact absurd h (by simp)

theorem hasFence_append_right (a b : List Char) (h : hasFence b = true) :
    hasFence (a ++ b) = true := by
  induction a with
  | nil => simpa using h
  | cons c cs ih => simp [hasFence, ih]

theorem hasFence_of_startsWith (s : List Char)
    (h : startsWithChars s fenceChars = true) : hasFence s = true := by
  cases s with
  | nil => simp [startsWithChars, fenceChars] at h
  | cons c cs => simp [hasFence, h]

theorem matchAlt_none_of_noFence (s : List Char) (h : hasFence s = false) :
    matchAlt s = none := by
  unfold matchAlt
  cases h1 : dropPrefixChars jsonFenceChars s with
  | some r =>
      exfalso
      have hs : startsWithChars s jsonFenceChars = true :=
        dropPrefixChars_some_startsWith _ _ _ h1
      have hs3 : startsWithChars s fenceChars = true :=
        startsWithChars_of_append s fenceChars ['j', 's', 'o', 'n'] hs
      rw [hasFence_of_startsWith s hs3] at h
      exact Bool.true_eq_false.mp h
  | none =>
      cases h2 : dropPrefixChars fenceChars (s.dropWhile isPySpace) with
      | some r =>
          exfalso
          have hs : startsWithChars (s.dropWhile isPySpace) fenceChars = true :=
            dropPrefixChars_some_startsWith _ _ _ h2
          have hdrop : hasFence (s.dropWhile isPySpace) = true :=
            hasFence_of_startsWith _ hs
          have : hasFence (s.takeWhile isPySpace ++ s.dropWhile isPySpace) = true :=
            hasFence_append_right _ _ hdrop
          rw [List.takeWhile_append_dropWhile] at this
          rw [this] at h
          exact Bool.true_eq_false.mp h
      | none => rfl

theorem reSubStripAux_id (n : Nat) (s : List Char) (h : hasFence s = false) :
    reSubStripAux n s = s := by
  induction n generalizing s with
  | zero => rfl
  | succ m ih =>
      cases s with
      | nil => rfl
      | cons c cs =>
          have hcs : hasFence cs = false := by
            simp only [hasFence, Bool.or_eq_false_iff] at h
            exact h.2
          simp only [reSubStripAux, matchAlt_none_of_noFence _ h]
          rw [ih cs hcs]

theorem cleanedSummary_id (s : String) (h : hasFence s.toList = false) :
    cleanedSummary s = s := by
  unfold cleanedSummary
  rw [reSubStripAux_id _ _ h]
  exact s.asString_toList

theorem containsChars_mid (x p y : List Char) :
    containsChars (x ++ (p ++ y)) p = true := by
  induction x with
  | nil =>
      cases p with
      | nil => cases y <;> simp [containsChars, startsWithChars]
      | cons q qs =>
          have h1 := startsWithChars_append (q :: qs) y
          simp only [List.nil_append, List.cons_append] at h1 ⊢
          simp [containsChars, h1]
  | cons c cs ih =>
      simp [List.cons_append, containsChars, ih]

theorem strContains_mid (a f b : String) : strContains (a ++ (f ++ b)) f = true := by
  have h : (a ++ (f ++ b)).toList = a.toList ++ (f.toList ++ b.toList) := by
    simp [String.toList, String.data_append]
  unfold strContains
  rw [h]
  exact containsChars_mid _ _ _

theorem intercalate_go_eq (s : String) : ∀ (as : List String) (acc₁ acc₂ : String),
    String.intercalate.go (acc₁ ++ acc₂) s as =
      acc₁ ++ String.intercalate.go acc₂ s as := by
  intro as
  induction as with
  | nil => intro acc₁ acc₂; rfl
  | cons a as ih =>
      intro acc₁ acc₂
      simp only [String.intercalate.go]
      rw [String.append_assoc acc₁ acc₂ s, String.append_assoc acc₁ (acc₂ ++ s) a]
      exact ih acc₁ ((acc₂ ++ s) ++ a)

theorem intercalate_eq_strJoin (s : String) : ∀ l : List String,
    String.intercalate s l = strJoin s l := by
  intro l
  induction l with
  | nil => rfl
  | cons x xs ih =>
      cases xs with
      | nil => rfl
      | cons y ys =>
          calc String.intercalate s (x :: y :: ys)
              = String.intercalate.go ((x ++ s) ++ y) s ys := by
                simp only [String.intercalate, String.intercalate.go]
            _ = (x ++ s) ++ String.intercalate.go y s ys :=
                intercalate_go_eq s ys (x ++ s) y
            _ = (x ++ s) ++ String.intercalate s (y :: ys) := by
                simp only [String.intercalate]
            _ = (x ++ s) ++ strJoin s (y :: ys) := by rw [ih]
            _ = strJoin s (x :: y :: ys) := by
                simp [strJoin, String.append_assoc]

theorem strJoin_mem_decomp (sep f : String) (l : List String) (h : f ∈ l) :
    ∃ a b, strJoin sep l = a ++ (f ++ b) := by
  induction l with
  | nil => cases h
  | cons x xs ih =>
      rcases List.mem_cons.mp h with rfl | hx
      · cases xs with
        | nil =>
            exact ⟨"", "", by
              simp [strJoin, String.append_empty, String.empty_append]⟩
        | cons y ys =>
            exact ⟨"", sep ++ strJoin sep (y :: ys), by
              simp [strJoin, String.empty_append, String.append_assoc]⟩
      · rcases ih hx with ⟨a, b, hab⟩
        cases xs with
        | nil => cases hx
        | cons y ys =>
            exact ⟨x ++ sep ++ a, b, by
              simp [strJoin, hab, String.append_assoc]⟩

/-! ## Concrete fixtures used by counterexamples and witnesses -/

/-- An environment providing all four LinkedIn variables. -/
def envFull : Env := fun v =>
  if v = "LINKEDIN_API_URL" then some "https://api.linkedin.test"
  else if v = "LINKEDIN_CLIENT_ID" then some "client-id"
  else if v = "LINKEDIN_CLIENT_SECRET" then some "client-secret"
  else if v = "LINKEDIN_REDIRECT_URI" then some "https://callback.test"
  else none

/-- `envFull` with `LINKEDIN_API_URL` removed and nothing else changed. -/
def envNoUrl : Env := fun v =>
  if v = "LINKEDIN_API_URL" then none else envFull v

/-- `envFull` with an unrelated variable added and the four LinkedIn
variables untouched. -/
def envHome : Env := fun v =>
  if v = "HOME" then some "/root" else envFull v

/-- A 200 response whose JSON body carries a `sub` identifier. -/
def respOk : HttpResponse := ⟨200, "OK", some (.obj [("sub", .str "user-1")])⟩

/-! ## Claims -/

/-- C1: for every structured record with non-empty `title`, `content`,
`hashtags` (a non-empty sequence of strings) and `question`, and `code` of
PostDraft's optional-string shape, the renderer never raises: its output is
exactly title, blank line, content, the optional fenced `c#` code block,
blank line, question, blank line, and the hashtags joined by single spaces;
consequently the output contains title, content and question as substrings
in that relative order. -/
theorem c1_render_ok (d : Obj) (t c q : String) (hss : List String)
    (ht : lookupField d "title" = some (.str t)) (ht' : t ≠ "")
    (hc : lookupField d "content" = some (.str c)) (hc' : c ≠ "")
    (hq : lookupField d "question" = some (.str q)) (hq' : q ≠ "")
    (hh : lookupField d "hashtags" = some (.arr (hss.map JsonVal.str)))
    (hh' : hss ≠ [])
    (hcode : lookupField d "code" = none ∨
      ∃ cs, lookupField d "code" = some (.str cs)) :
    convert_to_linkedin_post (.ok d) =
      .ok (t ++ "\n\n" ++ c ++ renderCodeSeg (lookupField d "code") ++ "\n\n" ++
           q ++ "\n\n" ++ strJoin " " hss) ∧
    ∃ b₁ b₂ b₃,
      t ++ "\n\n" ++ c ++ renderCodeSeg (lookupField d "code") ++ "\n\n" ++
        q ++ "\n\n" ++ strJoin " " hss = t ++ b₁ ++ c ++ b₂ ++ q ++ b₃ := by
  have hhs : (hss.map JsonVal.str).isEmpty = false := by
    cases hss with
    | nil => exact absurd rfl hh'
    | cons a as => rfl
  have hmiss : missingRequiredFields d = [] := by
    simp [missingRequiredFields, requiredFields, List.filter, ht, hc, hq, hh,
      pyTruthyOpt, pyTruthy, isEmpty_false_of_ne t ht', isEmpty_false_of_ne c hc',
      isEmpty_false_of_ne q hq', hhs]
  constructor
  · rcases hcode with hcd | ⟨cs, hcd⟩
    · simp [convert_to_linkedin_post, convert_to_linkedin_post_dict, hmiss,
        getItem, ht, hc, hq, hh, hcd, pyJoin, allStr?_map, allStr?, strJoin,
        renderCodeSeg, String.append_empty, String.append_assoc]
    · rw [hcd]
      cases hcs : cs.isEmpty with
      | true =>
          simp [convert_to_linkedin_post, convert_to_linkedin_post_dict, hmiss,
            getItem, ht, hc, hq, hh, hcd, pyTruthy, hcs, pyJoin, allStr?_map,
            allStr?, strJoin, renderCodeSeg, String.append_empty,
            String.append_assoc]
      | false =>
          simp [convert_to_linkedin_post, convert_to_linkedin_post_dict, hmiss,
            getItem, ht, hc, hq, hh, hcd, pyTruthy, hcs, pyJoin, allStr?_map,
            allStr?, strJoin, renderCodeSeg, String.append_empty,
            String.append_assoc]
          rw [show ("\n```\n\n" : String) = "\n```" ++ "\n\n" from rfl,
            String.append_assoc]
  · exact ⟨"\n\n", renderCodeSeg (lookupField d "code") ++ "\n\n",
      "\n\n" ++ strJoin " " hss, by simp [String.append_assoc]⟩

/-- A concrete well-formed record used by the C1 witness. -/
def recEx : Obj :=
  [("title", .str "T"), ("content", .str "B"), ("code", .str "var x;"),
   ("hashtags", .arr [.str "#a", .str "#b"]), ("question", .str "Q?")]

/-- C1 witness: a concrete record with all four required fields and a code
snippet renders to the expected single string. -/
theorem c1_witness :
    convert_to_linkedin_post (.ok recEx) =
      .ok ("T" ++ "\n\n" ++ "B" ++ renderCodeSeg (lookupField recEx "code") ++
        "\n\n" ++ "Q?" ++ "\n\n" ++ strJoin " " ["#a", "#b"]) :=
  (c1_render_ok recEx "T" "B" "Q?" ["#a", "#b"] rfl (by decide) rfl (by decide)
    rfl (by decide) rfl (by decide) (Or.inr ⟨"var x;", rfl⟩)).1

/-- C2: whenever at least one of the four required fields is falsy (absent,
empty string, or empty sequence), the renderer fails with a `ValueError`
whose message is the joined list of exactly the falsy required fields — a
field occurs in that list iff it is required and falsy — and the name of
every falsy required field (all N of them, not just the first) occurs
literally as a substring of the message. -/
theorem c2_missing_fields_all_named (d : Obj)
    (h : ∃ f, f ∈ requiredFields ∧ pyTruthyOpt (lookupField d f) = false) :
    convert_to_linkedin_post (.ok d) =
      .error (.valueError ("Missing required fields: " ++
        String.intercalate ", " (missingRequiredFields d))) ∧
    (∀ f, f ∈ missingRequiredFields d ↔
      f ∈ requiredFields ∧ pyTruthyOpt (lookupField d f) = false) ∧
    (∀ f, f ∈ requiredFields → pyTruthyOpt (lookupField d f) = false →
      strContains ("Missing required fields: " ++
        String.intercalate ", " (missingRequiredFields d)) f = true) := by
  obtain ⟨f0, hf0, hfal0⟩ := h
  have hmem0 : f0 ∈ missingRequiredFields d := by
    simp [missingRequiredFields, List.mem_filter, hf0, hfal0]
  refine ⟨?_, ?_, ?_⟩
  · have hne : (missingRequiredFields d).isEmpty = false := by
      cases hm : (missingRequiredFields d).isEmpty
      · rfl
      · exact absurd (List.isEmpty_iff.mp hm) (List.ne_nil_of_mem hmem0)
    simp [convert_to_linkedin_post, convert_to_linkedin_post_dict, hne]
  · intro f
    simp [missingRequiredFields, List.mem_filter]
  · intro f hf hfal
    have hmem : f ∈ missingRequiredFields d := by
      simp [missingRequiredFields, List.mem_filter, hf, hfal]
    obtain ⟨a, b, hab⟩ := strJoin_mem_decomp ", " f (missingRequiredFields d) hmem
    rw [intercalate_eq_strJoin, hab, ← String.append_assoc]
    exact strContains_mid _ _ _

/-- C2 witness: a record with only a non-empty `content` field fails with a
message naming all three missing fields, each of which occurs in it. -/
theorem c2_witness :
    convert_to_linkedin_post (.ok [("content", JsonVal.str "B")]) =
      .error (.valueError "Missing required fields: title, hashtags, question") ∧
    strContains "Missing required fields: title, hashtags, question" "title" = true ∧
    strContains "Missing required fields: title, hashtags, question" "hashtags" = true ∧
    strContains "Missing required fields: title, hashtags, question" "question" = true :=
  ⟨(c2_missing_fields_all_named [("content", JsonVal.str "B")]
      ⟨"title", by decide, rfl⟩).1,
   (c2_missing_fields_all_named [("content", JsonVal.str "B")]
      ⟨"title", by decide, rfl⟩).2.2 "title" (by decide) rfl,
   (c2_missing_fields_all_named [("content", JsonVal.str "B")]
      ⟨"title", by decide, rfl⟩).2.2 "hashtags" (by decide) rfl,
   (c2_missing_fields_all_named [("content", JsonVal.str "B")]
      ⟨"title", by decide, rfl⟩).2.2 "question" (by decide) rfl⟩

/-- C3 counterexample: the substitution is global, so backtick sequences in
the interior of the message — here inside a JSON string value, part of
neither a leading nor a trailing fence delimiter — are removed, refuting
the claim that such text is left unchanged. -/
theorem c3_counterexample :
    cleanedSummary "\x7b\"a\":\"x ```json y\"\x7d" = "\x7b\"a\":\"xjson y\"\x7d" ∧
    "\x7b\"a\":\"xjson y\"\x7d" ≠ "\x7b\"a\":\"x ```json y\"\x7d" := by
  constructor
  · rfl
  · decide

/-- C3 (amended): the fence-stripping substitution removes every occurrence
of `` ```json `` followed by a whitespace run and of a whitespace run
followed by `` ``` ``, anywhere in the message, not only leading/trailing
delimiters; on the fenced example it yields the bare JSON text, and it is
the identity on any input containing no three consecutive backticks. -/
theorem c3_strip_fences :
    cleanedSummary "```json\n\x7b\"a\":1\x7d\n```" = "\x7b\"a\":1\x7d" ∧
    ∀ s : String, hasFence s.toList = false → cleanedSummary s = s := by
  constructor
  · rfl
  · exact cleanedSummary_id

/-- C3 witness: stripping is a no-op on a concrete bare JSON text. -/
theorem c3_witness : cleanedSummary "\x7b\"a\":1\x7d" = "\x7b\"a\":1\x7d" :=
  c3_strip_fences.2 "\x7b\"a\":1\x7d" (by decide)

/-- C4: on any structured record (string `content` present, as PostDraft
requires), one application of the disclosure injector appends exactly the
fixed disclosure paragraph — a separator followed by the sentence
"This post was generated with the help of AI." — to `content` and exactly
the two hashtags #AIGenerated and #GeminiAI to the hashtags sequence
(creating that sequence when it is absent or not a list), leaving every
other field unchanged; a second application appends a second paragraph and
two further hashtags, so the injector is not idempotent. -/
theorem c4_disclosure_injector (d : Obj) (c : String)
    (hcon : lookupField d "content" = some (.str c)) :
    (∃ pre, aiDisclosure = pre ++ "This post was generated with the help of AI.") ∧
    (∀ hs, lookupField d "hashtags" = some (.arr hs) →
      ∃ d1 d2, add_ai_disclosure_dict d = .ok d1 ∧
        lookupField d1 "content" = some (.str (c ++ aiDisclosure)) ∧
        lookupField d1 "hashtags" = some (.arr (hs ++ aiHashtags)) ∧
        (∀ k, k ≠ "content" → k ≠ "hashtags" → lookupField d1 k = lookupField d k) ∧
        add_ai_disclosure_dict d1 = .ok d2 ∧
        lookupField d2 "content" = some (.str (c ++ aiDisclosure ++ aiDisclosure)) ∧
        lookupField d2 "hashtags" = some (.arr (hs ++ aiHashtags ++ aiHashtags)) ∧
        (∀ k, k ≠ "content" → k ≠ "hashtags" → lookupField d2 k = lookupField d k)) ∧
    ((∀ hs, lookupField d "hashtags" ≠ some (.arr hs)) →
      ∃ d1, add_ai_disclosure_dict d = .ok d1 ∧
        lookupField d1 "content" = some (.str (c ++ aiDisclosure)) ∧
        lookupField d1 "hashtags" = some (.arr aiHashtags) ∧
        (∀ k, k ≠ "content" → k ≠ "hashtags" → lookupField d1 k = lookupField d k)) := by
  have hne : ("hashtags" : String) ≠ "content" := by decide
  have hne' : ("content" : String) ≠ "hashtags" := by decide
  refine ⟨⟨"\n\n---\n" ++ String.singleton (Char.ofNat 0x1F916) ++ " ", by
    simp [aiDisclosure, String.append_assoc]⟩, ?_, ?_⟩
  · intro hs hhs
    have hinner : lookupField (setField d "content" (JsonVal.str (c ++ aiDisclosure)))
        "hashtags" = some (.arr hs) := by
      rw [lookupField_setField_ne d "content" "hashtags" _ hne]; exact hhs
    have hadd1 : add_ai_disclosure_dict d =
        .ok (setField (setField d "content" (.str (c ++ aiDisclosure))) "hashtags"
          (.arr (hs ++ aiHashtags))) := by
      simp [add_ai_disclosure_dict, extendHashtags, hcon, hinner]
    have h1c : lookupField (setField (setField d "content" (.str (c ++ aiDisclosure)))
        "hashtags" (.arr (hs ++ aiHashtags))) "content" = some (.str (c ++ aiDisclosure)) := by
      rw [lookupField_setField_ne _ "hashtags" "content" _ hne']
      exact lookupField_setField_self d "content" _
    have h1h : lookupField (setField (setField d "content" (.str (c ++ aiDisclosure)))
        "hashtags" (.arr (hs ++ aiHashtags))) "hashtags" = some (.arr (hs ++ aiHashtags)) :=
      lookupField_setField_self _ "hashtags" _
    have h1o : ∀ k, k ≠ "content" → k ≠ "hashtags" →
        lookupField (setField (setField d "content" (.str (c ++ aiDisclosure)))
          "hashtags" (.arr (hs ++ aiHashtags))) k = lookupField d k := by
      intro k hk1 hk2
      rw [lookupField_setField_ne _ "hashtags" k _ hk2,
        lookupField_setField_ne _ "content" k _ hk1]
    have hinner2 : lookupField (setField (setField (setField d "content"
        (.str (c ++ aiDisclosure))) "hashtags" (.arr (hs ++ aiHashtags))) "content"
        (JsonVal.str (c ++ aiDisclosure ++ aiDisclosure))) "hashtags" =
        some (.arr (hs ++ aiHashtags)) := by
      rw [lookupField_setField_ne _ "content" "hashtags" _ hne]; exact h1h
    have hadd2 : add_ai_disclosure_dict (setField (setField d "content"
        (.str (c ++ aiDisclosure))) "hashtags" (.arr (hs ++ aiHashtags))) =
        .ok (setField (setField (setField (setField d "content"
          (.str (c ++ aiDisclosure))) "hashtags" (.arr (hs ++ aiHashtags))) "content"
          (.str (c ++ aiDisclosure ++ aiDisclosure))) "hashtags"
          (.arr (hs ++ aiHashtags ++ aiHashtags))) := by
      simp [add_ai_disclosure_dict, extendHashtags, h1c, hinner2]
    refine ⟨_, _, hadd1, h1c, h1h, h1o, hadd2, ?_, ?_, ?_⟩
    · rw [lookupField_setField_ne _ "hashtags" "content" _ hne']
      exact lookupField_setField_self _ "content" _
    · exact lookupField_setField_self _ "hashtags" _
    · intro k hk1 hk2
      rw [lookupField_setField_ne _ "hashtags" k _ hk2,
        lookupField_setField_ne _ "content" k _ hk1]
      exact h1o k hk1 hk2
  · intro hno
    have hinner : lookupField (setField d "content" (JsonVal.str (c ++ aiDisclosure)))
        "hashtags" = lookupField d "hashtags" :=
      lookupField_setField_ne d "content" "hashtags" _ hne
    have hext : extendHashtags (setField d "content" (.str (c ++ aiDisclosure))) =
        setField (setField d "content" (.str (c ++ aiDisclosure))) "hashtags"
          (.arr aiHashtags) := by
      unfold extendHashtags
      rw [hinner]
      cases hv : lookupField d "hashtags" with
      | none => rfl
      | some v =>
          cases v with
          | arr hs => exact absurd hv (hno hs)
          | str s => rfl
          | num n => rfl
          | bool b => rfl
          | null => rfl
          | obj fs => rfl
    have hadd1 : add_ai_disclosure_dict d =
        .ok (setField (setField d "content" (.str (c ++ aiDisclosure))) "hashtags"
          (.arr aiHashtags)) := by
      simp [add_ai_disclosure_dict, hcon, hext]
    refine ⟨_, hadd1, ?_, ?_, ?_⟩
    · rw [lookupField_setField_ne _ "hashtags" "content" _ hne']
      exact lookupField_setField_self d "content" _
    · exact lookupField_setField_self _ "hashtags" _
    · intro k hk1 hk2
      rw [lookupField_setField_ne _ "hashtags" k _ hk2,
        lookupField_setField_ne _ "content" k _ hk1]

/-- C4 witness: the injector applied (twice) to a concrete record with a
string content and a one-element hashtag list. -/
theorem c4_witness :
    (∃ pre, aiDisclosure = pre ++ "This post was generated with the help of AI.") ∧
    (∃ d1 d2,
      add_ai_disclosure_dict [("title", .str "T"), ("content", .str "C"),
        ("hashtags", .arr [.str "#x"])] = .ok d1 ∧
      lookupField d1 "content" = some (.str ("C" ++ aiDisclosure)) ∧
      lookupField d1 "hashtags" = some (.arr ([.str "#x"] ++ aiHashtags)) ∧
      (∀ k, k ≠ "content" → k ≠ "hashtags" →
        lookupField d1 k = lookupField [("title", .str "T"), ("content", .str "C"),
          ("hashtags", .arr [.str "#x"])] k) ∧
      add_ai_disclosure_dict d1 = .ok d2 ∧
      lookupField d2 "content" = some (.str ("C" ++ aiDisclosure ++ aiDisclosure)) ∧
      lookupField d2 "hashtags" =
        some (.arr ([.str "#x"] ++ aiHashtags ++ aiHashtags)) ∧
      (∀ k, k ≠ "content" → k ≠ "hashtags" →
        lookupField d2 k = lookupField [("title", .str "T"), ("content", .str "C"),
          ("hashtags", .arr [.str "#x"])] k)) :=
  ⟨(c4_disclosure_injector [("title", .str "T"), ("content", .str "C"),
      ("hashtags", .arr [.str "#x"])] "C" rfl).1,
   (c4_disclosure_injector [("title", .str "T"), ("content", .str "C"),
      ("hashtags", .arr [.str "#x"])] "C" rfl).2.1 [.str "#x"] rfl⟩

set_option maxRecDepth 20000 in
/-- C5: the prompt builder is a pure function of the topic; an empty topic
fails with `ValueError("Topic is required")` whatever the backend would do
(the result does not depend on the continuation, so the check happens
before any backend call); and for topic "C# generics" the prompt literally
contains that topic, the word-count range marker 150-200, the `c#`
code-fence tag, and the JSON key list. -/
theorem c5_prompt_builder :
    (∀ rest, generate_post_head "" rest = .error (.valueError "Topic is required")) ∧
    strContains (create_linkedin_prompt "C# generics") "C# generics" = true ∧
    strContains (create_linkedin_prompt "C# generics") "150-200" = true ∧
    strContains (create_linkedin_prompt "C# generics") "```c#" = true ∧
    strContains (create_linkedin_prompt "C# generics")
      "\x7b\"title\": \"\", \"content\": \"\", \"code\": \"\", \"hashtags\": [], \"question\": \"\"\x7d"
      = true := by
  refine ⟨fun rest => rfl, ?_, ?_, ?_, ?_⟩ <;> decide

/-- C7: an empty access token makes both the service-level userinfo fetch
and the orchestration-level wrapper fail with
`ValueError("Access token is required")` for every environment and every
collaborator response — the result does not depend on the response, so no
network request is needed to produce it. -/
theorem c7_empty_token_no_network :
    ∀ (env : Env) (resp : HttpResponse),
      get_linkedin_userinfo env "" resp =
        .error (.valueError "Access token is required") ∧
      fetch_linkedin_userinfo env "" resp =
        .error (.valueError "Access token is required") := by
  intro env resp
  exact ⟨rfl, rfl⟩

/-- C10: a valid JSON object lacking a `content` key makes the disclosure
injector raise `KeyError("content")`, which its `try` block — catching only
JSON decode failures, which alone are re-raised as a `ValueError` — does
not intercept; the `KeyError` is none of the documented taxonomy kinds and
the top-level handler classifies it as an unexpected error (exiting 1, as
it does for every kind). -/
theorem c10_keyerror_escapes (d : Obj) (h : lookupField d "content" = none) :
    add_ai_disclosure (.ok d) = .error (.keyError "content") ∧
    (∀ e, add_ai_disclosure (.error e) =
      .error (.valueError ("Invalid JSON format: " ++ e))) ∧
    main_error_label (.keyError "content") = "Unexpected Error" ∧
    (∀ m, PyErr.keyError "content" ≠ .valueError m) ∧
    (∀ m, PyErr.keyError "content" ≠ .authError m) ∧
    (∀ m, PyErr.keyError "content" ≠ .postError m) := by
  refine ⟨?_, fun e => rfl, rfl, by simp, by simp, by simp⟩
  simp [add_ai_disclosure, add_ai_disclosure_dict, h]

/-- C10 witness: the injector on a concrete record without `content`. -/
theorem c10_witness :
    add_ai_disclosure (.ok [("title", JsonVal.str "T")]) =
      .error (.keyError "content") :=
  (c10_keyerror_escapes [("title", JsonVal.str "T")] rfl).1

/-- C8: both config constructors validate all required environment
variables at once: whenever the missing set is non-empty they fail with a
`ValueError` whose message lists exactly the missing variables (the list
contains a variable iff it is required and falsy in the environment, so
every missing variable is named and no other). -/
theorem c8_config_missing_vars (env : Env) :
    (linkedInMissingVars env ≠ [] →
      LinkedInConfig.from_env env = .error (.valueError
        ("Missing required environment variables: " ++
         String.intercalate ", " (linkedInMissingVars env)))) ∧
    (∀ v, v ∈ linkedInMissingVars env ↔
      v ∈ linkedInRequiredVars ∧ pyTruthyStrOpt (env v) = false) ∧
    (geminiMissingVars env ≠ [] →
      GeminiConfig.from_env env = .error (.valueError
        ("Missing required environment variables: " ++
         String.intercalate ", " (geminiMissingVars env)))) ∧
    (∀ v, v ∈ geminiMissingVars env ↔
      v ∈ ["GEMINI_API_KEY", "GEMINI_MODEL"] ∧ pyTruthyStrOpt (env v) = false) := by
  refine ⟨?_, ?_, ?_, ?_⟩
  · intro h
    have hne : (linkedInMissingVars env).isEmpty = false := by
      cases hm : (linkedInMissingVars env).isEmpty
      · rfl
      · exact absurd (List.isEmpty_iff.mp hm) h
    simp [LinkedInConfig.from_env, hne]
  · intro v
    simp [linkedInMissingVars, List.mem_filter]
  · intro h
    cases h1 : pyTruthyStrOpt (env "GEMINI_API_KEY") <;>
      cases h2 : pyTruthyStrOpt (env "GEMINI_MODEL") <;>
      simp [GeminiConfig.from_env, geminiMissingVars, h1, h2] at h ⊢
  · intro v
    by_cases hK : v = "GEMINI_API_KEY"
    · subst hK
      cases h1 : pyTruthyStrOpt (env "GEMINI_API_KEY") <;>
        simp [geminiMissingVars, h1]
    · by_cases hM : v = "GEMINI_MODEL"
      · subst hM
        cases h2 : pyTruthyStrOpt (env "GEMINI_MODEL") <;>
          simp [geminiMissingVars, h2]
      · constructor
        · intro hv
          exfalso
          rcases List.mem_append.mp hv with hv' | hv'
          · revert hv'
            split <;> simp [hK]
          · revert hv'
            split <;> simp [hM]
        · rintro ⟨hv', _⟩
          simp [hK, hM] at hv'

/-- An environment with the three other LinkedIn variables set and both
Gemini variables unset: only `LINKEDIN_CLIENT_ID` is missing from the
LinkedIn config and both variables from the Gemini config. -/
def envNoClientId : Env := fun v =>
  if v = "LINKEDIN_CLIENT_ID" then none else envFull v

/-- C8 witness: with `LINKEDIN_CLIENT_ID` unset the LinkedIn config fails
naming exactly it, and with both Gemini variables unset the Gemini config
fails naming exactly the two of them. -/
theorem c8_witness :
    LinkedInConfig.from_env envNoClientId = .error (.valueError
      "Missing required environment variables: LINKEDIN_CLIENT_ID") ∧
    GeminiConfig.from_env envNoClientId = .error (.valueError
      "Missing required environment variables: GEMINI_API_KEY, GEMINI_MODEL") :=
  ⟨(c8_config_missing_vars envNoClientId).1 (by decide),
   (c8_config_missing_vars envNoClientId).2.2.1 (by decide)⟩

/-- C6 counterexample: a 303 response — non-2xx — whose body parses as
JSON makes the UGC post call return that body successfully rather than
raise a `LinkedInPostError`, because `raise_for_status` only raises for
4xx/5xx statuses. -/
theorem c6_counterexample :
    create_linkedin_ugc_post envFull "tok" "author-1" "hello"
      ⟨303, "See Other", some (.obj [("id", .str "urn:li:share:1")])⟩ =
      .ok (.obj [("id", .str "urn:li:share:1")]) ∧
    ¬(200 ≤ 303 ∧ 303 < 300) := by
  exact ⟨rfl, by decide⟩

/-- C6 (amended): when the UGC post call receives a 4xx or 5xx response,
the service wraps the HTTP error — whose message carries the original
status code and reason text — once, as
`LinkedInPostError("Failed to create UGC post: ...")`; the orchestration
wrapper receives that `PostCreationError` and converts it to a contextual
`ValueError`, which the top-level handler maps to a categorized stderr
message and exit code 1, so the process never crashes on an unhandled
exception. -/
theorem c6_ugc_error_wrapped (env : Env) (cfg : LinkedInConfig)
    (tok aid txt : String) (resp : HttpResponse)
    (hcfg : LinkedInConfig.from_env env = .ok cfg)
    (ht : tok ≠ "") (ha : aid ≠ "") (hx : txt ≠ "")
    (hs4 : 400 ≤ resp.status) (hs6 : resp.status < 600) :
    ∃ m, create_linkedin_ugc_post env tok aid txt resp =
        .error (.postError ("Failed to create UGC post: " ++ m)) ∧
      (∃ suf, m = toString resp.status ++ suf) ∧
      (∃ pre suf, m = pre ++ (resp.reason ++ suf)) ∧
      post_linkedin_ugc env tok aid txt resp =
        .error (.valueError ("Failed to create LinkedIn post: " ++
          ("Failed to create UGC post: " ++ m))) ∧
      main_error_label (.valueError ("Failed to create LinkedIn post: " ++
        ("Failed to create UGC post: " ++ m))) = "Configuration Error" := by
  have hte : tok.isEmpty = false := isEmpty_false_of_ne tok ht
  have hae : aid.isEmpty = false := isEmpty_false_of_ne aid ha
  have hxe : txt.isEmpty = false := isEmpty_false_of_ne txt hx
  by_cases h5 : resp.status < 500
  · refine ⟨toString resp.status ++ " Client Error: " ++ resp.reason ++
      " for url: " ++ (cfg.api_url ++ "/v2/ugcPosts"), ?_, ?_, ?_, ?_, rfl⟩
    · have hr : raiseForStatus resp (cfg.api_url ++ "/v2/ugcPosts") =
          some (toString resp.status ++ " Client Error: " ++ resp.reason ++
            " for url: " ++ (cfg.api_url ++ "/v2/ugcPosts")) := by
        simp [raiseForStatus, hs4, h5]
      simp [create_linkedin_ugc_post, hte, hae, hxe, hcfg, hr]
    · exact ⟨" Client Error: " ++ resp.reason ++ " for url: " ++
        (cfg.api_url ++ "/v2/ugcPosts"), by simp [String.append_assoc]⟩
    · exact ⟨toString resp.status ++ " Client Error: ", " for url: " ++
        (cfg.api_url ++ "/v2/ugcPosts"), by simp [String.append_assoc]⟩
    · have hr : raiseForStatus resp (cfg.api_url ++ "/v2/ugcPosts") =
          some (toString resp.status ++ " Client Error: " ++ resp.reason ++
            " for url: " ++ (cfg.api_url ++ "/v2/ugcPosts")) := by
        simp [raiseForStatus, hs4, h5]
      simp [post_linkedin_ugc, create_linkedin_ugc_post, hte, hae, hxe, hcfg,
        hr, pyStr]
  · have h5' : 500 ≤ resp.status := Nat.le_of_not_lt h5
    refine ⟨toString resp.status ++ " Server Error: " ++ resp.reason ++
      " for url: " ++ (cfg.api_url ++ "/v2/ugcPosts"), ?_, ?_, ?_, ?_, rfl⟩
    · have hr : raiseForStatus resp (cfg.api_url ++ "/v2/ugcPosts") =
          some (toString resp.status ++ " Server Error: " ++ resp.reason ++
            " for url: " ++ (cfg.api_url ++ "/v2/ugcPosts")) := by
        simp [raiseForStatus, h5, h5', hs6]
      simp [create_linkedin_ugc_post, hte, hae, hxe, hcfg, hr]
    · exact ⟨" Server Error: " ++ resp.reason ++ " for url: " ++
        (cfg.api_url ++ "/v2/ugcPosts"), by simp [String.append_assoc]⟩
    · exact ⟨toString resp.status ++ " Server Error: ", " for url: " ++
        (cfg.api_url ++ "/v2/ugcPosts"), by simp [String.append_assoc]⟩
    · have hr : raiseForStatus resp (cfg.api_url ++ "/v2/ugcPosts") =
          some (toString resp.status ++ " Server Error: " ++ resp.reason ++
            " for url: " ++ (cfg.api_url ++ "/v2/ugcPosts")) := by
        simp [raiseForStatus, h5, h5', hs6]
      simp [post_linkedin_ugc, create_linkedin_ugc_post, hte, hae, hxe, hcfg,
        hr, pyStr]

/-- C6 witness: the wrapped error chain for a concrete 404 response. -/
theorem c6_witness :
    ∃ m, create_linkedin_ugc_post envFull "tok" "author-1" "hello"
        ⟨404, "Not Found", none⟩ =
        .error (.postError ("Failed to create UGC post: " ++ m)) ∧
      (∃ suf, m = toString (404 : Nat) ++ suf) ∧
      (∃ pre suf, m = pre ++ ("Not Found" ++ suf)) ∧
      post_linkedin_ugc envFull "tok" "author-1" "hello"
        ⟨404, "Not Found", none⟩ =
        .error (.valueError ("Failed to create LinkedIn post: " ++
          ("Failed to create UGC post: " ++ m))) ∧
      main_error_label (.valueError ("Failed to create LinkedIn post: " ++
        ("Failed to create UGC post: " ++ m))) = "Configuration Error" :=
  c6_ugc_error_wrapped envFull
    ⟨"https://api.linkedin.test", "client-id", "client-secret", "https://callback.test"⟩
    "tok" "author-1" "hello" ⟨404, "Not Found", none⟩ rfl (by decide) (by decide)
    (by decide) (by decide) (by decide)

/-- C9 counterexample: each client operation constructs a fresh config from
the environment during the call, so two runs of the userinfo fetch that
differ only in the environment state at call time (here: whether
`LINKEDIN_API_URL` is set — a `LINKEDIN_*` variable, everything else
identical) behave differently, refuting the claim that the variables are
not re-read or re-validated during the call. -/
theorem c9_counterexample :
    get_linkedin_userinfo envFull "tok" respOk =
      .ok (.obj [("sub", .str "user-1")]) ∧
    get_linkedin_userinfo envNoUrl "tok" respOk =
      .error (.valueError
        "Missing required environment variables: LINKEDIN_API_URL") ∧
    (∀ v, v ≠ "LINKEDIN_API_URL" → envFull v = envNoUrl v) := by
  refine ⟨rfl, rfl, fun v hv => ?_⟩
  simp [envNoUrl, hv]

/-- C9 (amended): every LinkedIn client operation re-reads the `LINKEDIN_*`
environment variables at call time by constructing a fresh config, and
depends on the environment only through the four required variables: two
runs whose environments agree on those four behave identically, whatever
the rest of the environment holds. -/
theorem c9_env_agreement (env1 env2 : Env)
    (hagree : ∀ v, v ∈ linkedInRequiredVars → env1 v = env2 v) :
    ∀ (tok aid txt code : String) (resp : HttpResponse),
      get_linkedin_userinfo env1 tok resp = get_linkedin_userinfo env2 tok resp ∧
      create_linkedin_ugc_post env1 tok aid txt resp =
        create_linkedin_ugc_post env2 tok aid txt resp ∧
      get_linkedin_access_token env1 code resp =
        get_linkedin_access_token env2 code resp := by
  have h1 : env1 "LINKEDIN_API_URL" = env2 "LINKEDIN_API_URL" :=
    hagree _ (by simp [linkedInRequiredVars])
  have h2 : env1 "LINKEDIN_CLIENT_ID" = env2 "LINKEDIN_CLIENT_ID" :=
    hagree _ (by simp [linkedInRequiredVars])
  have h3 : env1 "LINKEDIN_CLIENT_SECRET" = env2 "LINKEDIN_CLIENT_SECRET" :=
    hagree _ (by simp [linkedInRequiredVars])
  have h4 : env1 "LINKEDIN_REDIRECT_URI" = env2 "LINKEDIN_REDIRECT_URI" :=
    hagree _ (by simp [linkedInRequiredVars])
  have hmv : linkedInMissingVars env1 = linkedInMissingVars env2 := by
    unfold linkedInMissingVars
    exact List.filter_congr fun k hk => by rw [hagree k hk]
  have hfe : LinkedInConfig.from_env env1 = LinkedInConfig.from_env env2 := by
    simp only [LinkedInConfig.from_env, hmv, h1, h2, h3, h4]
  intro tok aid txt code resp
  refine ⟨?_, ?_, ?_⟩
  · simp only [get_linkedin_userinfo, hfe]
  · simp only [create_linkedin_ugc_post, hfe]
  · simp only [get_linkedin_access_token, hfe]

/-- C9 witness: the three operations agree across two concrete
environments that differ only in a variable outside the `LINKEDIN_*`
family. -/
theorem c9_witness :
    get_linkedin_userinfo envFull "tok" respOk =
      get_linkedin_userinfo envHome "tok" respOk ∧
    create_linkedin_ugc_post envFull "tok" "author-1" "hello" respOk =
      create_linkedin_ugc_post envHome "tok" "author-1" "hello" respOk ∧
    get_linkedin_access_token envFull "auth-code" respOk =
      get_linkedin_access_token envHome "auth-code" respOk :=
  c9_env_agreement envFull envHome
    (by intro v hv; fin_cases hv <;> rfl)
    "tok" "author-1" "hello" "auth-code" respOk
